import Mathlib

/-!
Verification of the envelope-construction core of a client-side telemetry SDK
(`packages/core/src/envelope.ts`) and of its replay segmentation protocol.

Optional JavaScript values (`x?: T`) are embedded as `Option`; the JavaScript
truthiness test used by the source on strings (`a || b`, `!!t`) is made
explicit (`jsOrStr`, `jsTruthyStr`): for a `string | undefined` value both
`undefined` and the empty string are falsy.  `new Date().toISOString()` is
made explicit as a `now : String` argument.  In-place mutation of the event
becomes explicit value passing: the function result carries the updated event.
-/

/-- A package descriptor (`Package` in the types package): name and version. -/
structure SdkPackage where
  name : String
  version : String
deriving DecidableEq

/-- `SdkInfo`: all four fields optional in the source types. -/
structure SdkInfo where
  name : Option String := none
  version : Option String := none
  integrations : Option (List String) := none
  packages : Option (List SdkPackage) := none
deriving DecidableEq

/-- `SdkMetadata`: carries an optional `sdk` sub-record. -/
structure SdkMetadata where
  sdk : Option SdkInfo := none
deriving DecidableEq

/-- `EventType` of the types package: the only literal is `transaction`. -/
inductive EventType
  | transaction
deriving DecidableEq

/-- The trace context stored under `event.contexts.trace`; the envelope code
reads only `trace_id`, the other fields stand for the rest of the record. -/
structure TraceContext where
  trace_id : Option String := none
  span_id : Option String := none
  op : Option String := none
deriving DecidableEq

/-- `event.contexts`: the envelope code only looks at the `trace` key; `other`
stands for the remaining context entries. -/
structure Contexts where
  trace : Option TraceContext := none
  other : List (String × String) := []
deriving DecidableEq

/-- `event.user`: the trace header picks out `id` and `segment`. -/
structure User where
  id : Option String := none
  segment : Option String := none
  email : Option String := none
deriving DecidableEq

/-- `sdkProcessingMetadata.transactionSampling`: sampling method and rate,
both optional. The JS number is carried as `Rat`; no arithmetic is done. -/
structure TransactionSampling where
  method : Option String := none
  rate : Option Rat := none
deriving DecidableEq

/-- The internal `sdkProcessingMetadata` scratch record: the envelope code
reads `transactionSampling`; `other` stands for any further scratch data. -/
structure SdkProcessingMetadata where
  transactionSampling : Option TransactionSampling := none
  other : List (String × String) := []
deriving DecidableEq

/-- The domain `Event` record, restricted to the fields the envelope code
reads or writes plus representative untouched fields (`message`, `timestamp`,
`tags`) used to state frame conditions. -/
structure Event where
  event_id : Option String := none
  type : Option EventType := none
  message : Option String := none
  timestamp : Option Rat := none
  environment : Option String := none
  release : Option String := none
  transaction : Option String := none
  user : Option User := none
  contexts : Option Contexts := none
  tags : List (String × String) := []
  sdk : Option SdkInfo := none
  sdkProcessingMetadata : Option SdkProcessingMetadata := none
deriving DecidableEq

/-- `DsnComponents`, restricted to the parts the envelope code uses. -/
structure DsnComponents where
  host : String := ""
  projectId : String := ""
  publicKey : Option String := none
deriving DecidableEq

/-- JavaScript `a || b` for `string | undefined` values: `undefined` and the
empty string are falsy. -/
def jsOrStr (a b : Option String) : Option String :=
  match a with
  | some s => if s = "" then b else some s
  | none => b

/-- JavaScript truthiness `!!t` of a `string | undefined` value. -/
def jsTruthyStr (o : Option String) : Bool :=
  match o with
  | some s => !(s == "")
  | none => false

/-- Modelled from the spec: `dsnToString` lives in `@sentry/utils`, which is
not under `src/`; the spec only calls it the rendering of the routing
descriptor ("destination/identity information used to address the ingestion
endpoint"), and no claim depends on the exact format. -/
def dsnToString (dsn : DsnComponents) : String :=
  dsn.host ++ "/" ++ dsn.projectId

/-- `getSdkMetadataForEnvelopeHeader`: extract name/version-only sdk info from
the API metadata; `undefined` unless metadata with an `sdk` sub-record is
supplied. -/
def getSdkMetadataForEnvelopeHeader (metadata : Option SdkMetadata) : Option SdkInfo :=
  match metadata.bind (fun m => m.sdk) with
  | none => none
  | some s => some { name := s.name, version := s.version }

/-- `enhanceEventWithSdkInfo`: apply SdkInfo (name, version, packages,
integrations) to the corresponding event key, merging with existing data. -/
def enhanceEventWithSdkInfo (event : Event) (sdkInfo : Option SdkInfo) : Event :=
  match sdkInfo with
  | none => event
  | some si =>
    let sdk0 := event.sdk.getD {}
    { event with
      sdk := some
        { name := jsOrStr sdk0.name si.name
          version := jsOrStr sdk0.version si.version
          integrations := some (sdk0.integrations.getD [] ++ si.integrations.getD [])
          packages := some (sdk0.packages.getD [] ++ si.packages.getD []) } }

/-- A value inside the header's `trace` sub-object: a string, the nested user
object built as `{ id, segment }`, or JavaScript `undefined`. -/
inductive TraceVal
  | str : String → TraceVal
  | usr : List (String × Option String) → TraceVal
  | undef : TraceVal
deriving DecidableEq

/-- Render a possibly-undefined string as a trace-object value. -/
def optVal (o : Option String) : TraceVal :=
  match o with
  | some s => TraceVal.str s
  | none => TraceVal.undef

/-- Modelled from the spec: `dropUndefinedKeys` lives in `@sentry/utils`,
which is not under `src/`; per the spec, "all undefined-valued fields inside
the trace sub-object are dropped (never emitted as explicit nulls)",
including inside the nested user object. -/
def dropUndefinedKeys (kvs : List (String × TraceVal)) : List (String × TraceVal) :=
  (kvs.filter (fun kv => kv.2 ≠ TraceVal.undef)).map (fun kv =>
    match kv with
    | (k, TraceVal.usr ukvs) => (k, TraceVal.usr (ukvs.filter (fun ukv => ukv.2.isSome)))
    | other => other)

/-- The trace object literal built in `createEventEnvelopeHeaders` before
`dropUndefinedKeys` is applied (`tc` is the present `event.contexts.trace`). -/
def rawTraceObject (event : Event) (tc : TraceContext) (dsn : DsnComponents) :
    List (String × TraceVal) :=
  [("trace_id", optVal tc.trace_id),
   ("environment", optVal event.environment),
   ("release", optVal event.release),
   ("transaction", optVal event.transaction),
   ("user", match event.user with
     | none => TraceVal.undef
     | some u => TraceVal.usr [("id", u.id), ("segment", u.segment)]),
   ("public_key", optVal dsn.publicKey)]

/-- `EventEnvelopeHeaders`: `event_id` and `sent_at` always written (the
source writes `event.event_id as string` with no check, so the value may be
absent), `sdk`, `dsn` and `trace` keys conditionally spread in. -/
structure EventEnvelopeHeaders where
  event_id : Option String
  sent_at : String
  sdk : Option SdkInfo
  dsn : Option String
  trace : Option (List (String × TraceVal))
deriving DecidableEq

/-- `createEventEnvelopeHeaders`: build the envelope header for an event. -/
def createEventEnvelopeHeaders (event : Event) (sdkInfo : Option SdkInfo)
    (tunnel : Option String) (dsn : DsnComponents) (now : String) :
    EventEnvelopeHeaders :=
  { event_id := event.event_id
    sent_at := now
    sdk := sdkInfo
    dsn := if jsTruthyStr tunnel then some (dsnToString dsn) else none
    trace :=
      match event.type, event.contexts.bind (fun c => c.trace) with
      | some EventType.transaction, some tc =>
        some (dropUndefinedKeys (rawTraceObject event tc dsn))
      | _, _ => none }

/-- One entry of the item header's `sample_rates` list. -/
structure SampleRateEntry where
  id : Option String
  rate : Option Rat
deriving DecidableEq

/-- The event item header `{ type, sample_rates }`. -/
structure EventItemHeaders where
  type : String
  sample_rates : List SampleRateEntry
deriving DecidableEq

/-- An event item: item header plus the event payload. -/
abbrev EventItem := EventItemHeaders × Event

/-- An event envelope: envelope headers plus the item list. -/
abbrev EventEnvelope := EventEnvelopeHeaders × List EventItem

/-- Modelled from the spec: `createEnvelope` lives in `@sentry/utils`, which
is not under `src/`; per spec section 4.3 the Envelope Assembler is purely
structural packaging of `(header, items[])` into the container, with no
validation. -/
def createEnvelope {H I : Type} (headers : H) (items : List I) : H × List I :=
  (headers, items)

/-- `createEventEnvelope`: orchestrate sdk-info extraction, sampling-data
read, sdk merge, `sdkProcessingMetadata` deletion, header build and assembly,
in source order. -/
def createEventEnvelope (event : Event) (dsn : DsnComponents)
    (metadata : Option SdkMetadata) (tunnel : Option String) (now : String) :
    EventEnvelope :=
  let sdkInfo := getSdkMetadataForEnvelopeHeader metadata
  let eventType : String :=
    match event.type with
    | some EventType.transaction => "transaction"
    | none => "event"
  let transactionSampling := event.sdkProcessingMetadata.bind
    (fun m => m.transactionSampling)
  let samplingMethod := transactionSampling.bind (fun ts => ts.method)
  let sampleRate := transactionSampling.bind (fun ts => ts.rate)
  let event1 := enhanceEventWithSdkInfo event (metadata.bind (fun m => m.sdk))
  let event2 := { event1 with sdkProcessingMetadata := none }
  let envelopeHeaders := createEventEnvelopeHeaders event2 sdkInfo tunnel dsn now
  let eventItem : EventItem :=
    ({ type := eventType
       sample_rates := [{ id := samplingMethod, rate := sampleRate }] }, event2)
  createEnvelope envelopeHeaders [eventItem]

/-- A plain `Session` payload (opaque to the envelope code). -/
structure SessionPayload where
  sid : String := ""
  status : String := ""
deriving DecidableEq

/-- A `SessionAggregates` payload: carries the `aggregates` field. -/
structure SessionAggregatesPayload where
  aggregates : List (String × Nat) := []
deriving DecidableEq

/-- The `Session | SessionAggregates` union, distinguished structurally in
the source by presence of the `aggregates` field. -/
inductive SessionLike
  | session : SessionPayload → SessionLike
  | aggregates : SessionAggregatesPayload → SessionLike
deriving DecidableEq

/-- Whether the input carries an `aggregates` field (`'aggregates' in session`). -/
def SessionLike.hasAggregates : SessionLike → Bool
  | SessionLike.session _ => false
  | SessionLike.aggregates _ => true

/-- Session envelope headers: `sent_at` always, `sdk` and `dsn` conditional. -/
structure SessionEnvelopeHeaders where
  sent_at : String
  sdk : Option SdkInfo
  dsn : Option String
deriving DecidableEq

/-- The session item header: bare `type` discriminator. -/
structure SessionItemHeaders where
  type : String
deriving DecidableEq

/-- A session item: item header plus the session payload. -/
abbrev SessionItem := SessionItemHeaders × SessionLike

/-- A session envelope: envelope headers plus the item list. -/
abbrev SessionEnvelope := SessionEnvelopeHeaders × List SessionItem

/-- `createSessionEnvelope`: build an envelope from a Session or
SessionAggregates. -/
def createSessionEnvelope (session : SessionLike) (dsn : DsnComponents)
    (metadata : Option SdkMetadata) (tunnel : Option String) (now : String) :
    SessionEnvelope :=
  let sdkInfo := getSdkMetadataForEnvelopeHeader metadata
  let envelopeHeaders : SessionEnvelopeHeaders :=
    { sent_at := now
      sdk := sdkInfo
      dsn := if jsTruthyStr tunnel then some (dsnToString dsn) else none }
  let envelopeItem : SessionItem :=
    match session with
    | SessionLike.aggregates _ => ({ type := "sessions" }, session)
    | SessionLike.session _ => ({ type := "session" }, session)
  createEnvelope envelopeHeaders [envelopeItem]

/-- Observer: the event's `sdk.name` (absent when `sdk` itself is absent). -/
def sdkNameOf (event : Event) : Option String :=
  event.sdk.bind (fun s => s.name)

/-- Observer: the event's `sdk.version`. -/
def sdkVersionOf (event : Event) : Option String :=
  event.sdk.bind (fun s => s.version)

/-- Observer: the event's `sdk.integrations` list, empty when absent. -/
def integrationsOf (event : Event) : List String :=
  (event.sdk.bind (fun s => s.integrations)).getD []

/-- Observer: the event's `sdk.packages` list, empty when absent. -/
def packagesOf (event : Event) : List SdkPackage :=
  (event.sdk.bind (fun s => s.packages)).getD []

/-- Observer: the sampling method read from the input event's
`sdkProcessingMetadata.transactionSampling`. -/
def samplingMethodOf (event : Event) : Option String :=
  (event.sdkProcessingMetadata.bind (fun m => m.transactionSampling)).bind
    (fun ts => ts.method)

/-- Observer: the sample rate read from the input event's
`sdkProcessingMetadata.transactionSampling`. -/
def sampleRateOf (event : Event) : Option Rat :=
  (event.sdkProcessingMetadata.bind (fun m => m.transactionSampling)).bind
    (fun ts => ts.rate)

/-- Observer: the item-header `type` string derived from `event.type`. -/
def eventTypeStringOf (event : Event) : String :=
  match event.type with
  | some EventType.transaction => "transaction"
  | none => "event"

/-- Modelled from the spec: the replay Segment Accumulator (spec section 4.6)
is not under `src/` (only its integration test is); it buffers the four data
kinds — full snapshots, incremental mutations, breadcrumbs, performance
spans — in arrival order between flush points. -/
structure Accumulator where
  snapshots : List Nat := []
  mutations : List Nat := []
  breadcrumbs : List Nat := []
  spans : List Nat := []
deriving DecidableEq

/-- Whether the Accumulator is empty of all four data kinds. -/
def Accumulator.isEmpty (a : Accumulator) : Bool :=
  a.snapshots.isEmpty && a.mutations.isEmpty && a.breadcrumbs.isEmpty && a.spans.isEmpty

/-- A flushed replay segment: its sequence id and the drained buffer. -/
structure ReplaySegment where
  segment_id : Nat
  data : Accumulator
deriving DecidableEq

/-- Modelled from the spec: Segmenter/Sequencer state (spec section 4.7) —
`recording` distinguishes `Idle` from `Recording`; `counter` is the
session-global segment counter; `buffer` is the current Accumulator. -/
structure ReplayState where
  recording : Bool
  counter : Nat
  buffer : Accumulator
deriving DecidableEq

/-- The operations driving the Segmenter: the four append kinds, the four
flush triggers (timer tick, backgrounding, navigation, manual flush), the
reload signal (session continuation), and stop. -/
inductive ReplayOp
  | addSnapshot : Nat → ReplayOp
  | addMutation : Nat → ReplayOp
  | addBreadcrumb : Nat → ReplayOp
  | addSpan : Nat → ReplayOp
  | tick : ReplayOp
  | backgrounded : ReplayOp
  | navigated : ReplayOp
  | manualFlush : ReplayOp
  | reloaded : ReplayOp
  | stop : ReplayOp
deriving DecidableEq

/-- Modelled from the spec: `start()` resets the segment counter to 0 and
enters `Recording` with an empty buffer. -/
def replayStart : ReplayState :=
  { recording := true, counter := 0, buffer := {} }

/-- Modelled from the spec: a flush packages the current buffer as a segment
carrying the current counter value and increments the counter by exactly 1 —
unless literally nothing is accumulated, in which case it is a no-op that
consumes no segment number (spec section 4.7 failure semantics). -/
def flushStep (s : ReplayState) : ReplayState × Option ReplaySegment :=
  if s.buffer.isEmpty then (s, none)
  else ({ s with counter := s.counter + 1, buffer := {} },
        some { segment_id := s.counter, data := s.buffer })

/-- Modelled from the spec: one Segmenter step. Appends buffer in arrival
order; every flush trigger behaves identically on the counter; `reloaded` is
session continuation (the counter is not reset); `stop` flushes pending data
first and returns to Idle; in Idle all operations are inert. -/
def replayStep (s : ReplayState) (op : ReplayOp) : ReplayState × Option ReplaySegment :=
  if s.recording then
    match op with
    | ReplayOp.addSnapshot d =>
      ({ s with buffer := { s.buffer with snapshots := s.buffer.snapshots ++ [d] } }, none)
    | ReplayOp.addMutation d =>
      ({ s with buffer := { s.buffer with mutations := s.buffer.mutations ++ [d] } }, none)
    | ReplayOp.addBreadcrumb d =>
      ({ s with buffer := { s.buffer with breadcrumbs := s.buffer.breadcrumbs ++ [d] } }, none)
    | ReplayOp.addSpan d =>
      ({ s with buffer := { s.buffer with spans := s.buffer.spans ++ [d] } }, none)
    | ReplayOp.tick => flushStep s
    | ReplayOp.backgrounded => flushStep s
    | ReplayOp.navigated => flushStep s
    | ReplayOp.manualFlush => flushStep s
    | ReplayOp.reloaded => flushStep s
    | ReplayOp.stop =>
      let fs := flushStep s
      ({ fs.1 with recording := false }, fs.2)
  else (s, none)

/-- Run the Segmenter over a trace of operations, collecting emitted
segments in emission order. -/
def replayRun (s : ReplayState) (ops : List ReplayOp) : ReplayState × List ReplaySegment :=
  match ops with
  | [] => (s, [])
  | op :: rest =>
    let st := replayStep s op
    let rec1 := replayRun st.1 rest
    (rec1.1, st.2.toList ++ rec1.2)

theorem jsOrStr_none (b : Option String) : jsOrStr none b = b := rfl

theorem jsOrStr_empty (b : Option String) : jsOrStr (some "") b = b := by
  simp [jsOrStr]

theorem jsOrStr_of_ne (s : String) (b : Option String) (h : s ≠ "") :
    jsOrStr (some s) b = some s := by
  simp [jsOrStr, h]

theorem jsOrStr_self (b : Option String) : jsOrStr b b = b := by
  cases b with
  | none => rfl
  | some s =>
    by_cases h : s = ""
    · subst h; simp [jsOrStr]
    · simp [jsOrStr, h]

theorem jsOrStr_idem (a b : Option String) : jsOrStr (jsOrStr a b) b = jsOrStr a b := by
  cases a with
  | none => simp [jsOrStr_none, jsOrStr_self]
  | some s =>
    by_cases h : s = ""
    · subst h; simp [jsOrStr_empty, jsOrStr_self]
    · simp [jsOrStr_of_ne s b h]

theorem sdkNameOf_enhance (e : Event) (si : SdkInfo) :
    sdkNameOf (enhanceEventWithSdkInfo e (some si)) = jsOrStr (sdkNameOf e) si.name := by
  cases h : e.sdk <;> simp [enhanceEventWithSdkInfo, sdkNameOf, h, Option.getD]

theorem sdkVersionOf_enhance (e : Event) (si : SdkInfo) :
    sdkVersionOf (enhanceEventWithSdkInfo e (some si)) = jsOrStr (sdkVersionOf e) si.version := by
  cases h : e.sdk <;> simp [enhanceEventWithSdkInfo, sdkVersionOf, h, Option.getD]

theorem integrationsOf_enhance (e : Event) (si : SdkInfo) :
    integrationsOf (enhanceEventWithSdkInfo e (some si))
      = integrationsOf e ++ si.integrations.getD [] := by
  cases h : e.sdk <;> simp [enhanceEventWithSdkInfo, integrationsOf, h, Option.getD]

theorem packagesOf_enhance (e : Event) (si : SdkInfo) :
    packagesOf (enhanceEventWithSdkInfo e (some si))
      = packagesOf e ++ si.packages.getD [] := by
  cases h : e.sdk <;> simp [enhanceEventWithSdkInfo, packagesOf, h, Option.getD]

/-- C1 counterexample: the merger does not set `sdk.name` "only if absent" —
an event whose `sdk.name` is present but equal to the empty string (falsy in
JavaScript) is overwritten by the descriptor's name. -/
theorem enhanceEventWithSdkInfo_overwrites_present_empty_name :
    sdkNameOf { sdk := some { name := some "" } } = some ""
    ∧ sdkNameOf (enhanceEventWithSdkInfo { sdk := some { name := some "" } }
        (some { name := some "B" })) = some "B"
    ∧ (some "B" : Option String) ≠ some "" := by
  refine ⟨rfl, ?_, by decide⟩
  decide

/-- C1 (amended): `enhanceEventWithSdkInfo` keeps an existing non-empty
`sdk.name`/`sdk.version` (first non-falsy writer wins) and otherwise takes
the descriptor's value; merging twice is idempotent for name/version;
integrations and packages are appended after pre-existing entries, never
deduplicated or reordered; with no descriptor the event is returned
unchanged. -/
theorem enhanceEventWithSdkInfo_merge_spec (e : Event) (si : SdkInfo) :
    (enhanceEventWithSdkInfo e none = e)
    ∧ (∀ s, sdkNameOf e = some s → s ≠ "" →
        sdkNameOf (enhanceEventWithSdkInfo e (some si)) = some s)
    ∧ ((sdkNameOf e = none ∨ sdkNameOf e = some "") →
        sdkNameOf (enhanceEventWithSdkInfo e (some si)) = si.name)
    ∧ (∀ s, sdkVersionOf e = some s → s ≠ "" →
        sdkVersionOf (enhanceEventWithSdkInfo e (some si)) = some s)
    ∧ ((sdkVersionOf e = none ∨ sdkVersionOf e = some "") →
        sdkVersionOf (enhanceEventWithSdkInfo e (some si)) = si.version)
    ∧ (integrationsOf (enhanceEventWithSdkInfo e (some si))
        = integrationsOf e ++ si.integrations.getD [])
    ∧ (packagesOf (enhanceEventWithSdkInfo e (some si))
        = packagesOf e ++ si.packages.getD [])
    ∧ (sdkNameOf (enhanceEventWithSdkInfo (enhanceEventWithSdkInfo e (some si)) (some si))
        = sdkNameOf (enhanceEventWithSdkInfo e (some si)))
    ∧ (sdkVersionOf (enhanceEventWithSdkInfo (enhanceEventWithSdkInfo e (some si)) (some si))
        = sdkVersionOf (enhanceEventWithSdkInfo e (some si))) := by
  refine ⟨rfl, ?_, ?_, ?_, ?_, integrationsOf_enhance e si, packagesOf_enhance e si, ?_, ?_⟩
  · intro s hs hne
    rw [sdkNameOf_enhance, hs, jsOrStr_of_ne s si.name hne]
  · intro h
    rw [sdkNameOf_enhance]
    rcases h with h | h <;> rw [h]
    · exact jsOrStr_none si.name
    · exact jsOrStr_empty si.name
  · intro s hs hne
    rw [sdkVersionOf_enhance, hs, jsOrStr_of_ne s si.version hne]
  · intro h
    rw [sdkVersionOf_enhance]
    rcases h with h | h <;> rw [h]
    · exact jsOrStr_none si.version
    · exact jsOrStr_empty si.version
  · rw [sdkNameOf_enhance (enhanceEventWithSdkInfo e (some si)) si, sdkNameOf_enhance e si,
      jsOrStr_idem]
  · rw [sdkVersionOf_enhance (enhanceEventWithSdkInfo e (some si)) si,
      sdkVersionOf_enhance e si, jsOrStr_idem]

/-- Witness for the amended C1 theorem: a present non-empty name is kept. -/
theorem enhanceEventWithSdkInfo_merge_spec_witness :
    sdkNameOf (enhanceEventWithSdkInfo { sdk := some { name := some "keep" } }
      (some { name := some "B" })) = some "keep" :=
  (enhanceEventWithSdkInfo_merge_spec { sdk := some { name := some "keep" } }
      { name := some "B" }).2.1 "keep" rfl (by decide)

/-- C10: with a present descriptor the merger always materializes the
event's `sdk` record and leaves `sdk.integrations` and `sdk.packages`
defined (possibly empty) lists, even when both sides lacked them. -/
theorem enhanceEventWithSdkInfo_materializes (e : Event) (si : SdkInfo) :
    ((enhanceEventWithSdkInfo e (some si)).sdk.isSome = true)
    ∧ (((enhanceEventWithSdkInfo e (some si)).sdk.bind
        (fun r => r.integrations)).isSome = true)
    ∧ (((enhanceEventWithSdkInfo e (some si)).sdk.bind
        (fun r => r.packages)).isSome = true) := by
  cases h : e.sdk <;> simp [enhanceEventWithSdkInfo, h]

theorem dropUndefinedKeys_no_undef (kvs : List (String × TraceVal)) :
    ∀ kv ∈ dropUndefinedKeys kvs, kv.2 ≠ TraceVal.undef := by
  intro kv hkv
  unfold dropUndefinedKeys at hkv
  rcases List.mem_map.mp hkv with ⟨kv0, hmem, heq⟩
  have h0 : kv0.2 ≠ TraceVal.undef := by
    have := (List.mem_filter.mp hmem).2
    simpa using this
  rcases kv0 with ⟨k, v⟩
  cases v with
  | str s =>
    subst heq
    intro hcontra
    exact TraceVal.noConfusion hcontra
  | usr l =>
    subst heq
    intro hcontra
    exact TraceVal.noConfusion hcontra
  | undef => exact absurd rfl h0

/-- C2: the envelope header carries a `trace` key iff the event is a
transaction that carries a trace context, and whenever the trace sub-object
is present none of its keys holds an undefined value. -/
theorem createEventEnvelopeHeaders_trace_spec (e : Event) (si : Option SdkInfo)
    (t : Option String) (d : DsnComponents) (now : String) :
    ((createEventEnvelopeHeaders e si t d now).trace.isSome ↔
      (e.type = some EventType.transaction ∧ (e.contexts.bind (fun c => c.trace)).isSome))
    ∧ (∀ kvs, (createEventEnvelopeHeaders e si t d now).trace = some kvs →
        ∀ kv ∈ kvs, kv.2 ≠ TraceVal.undef) := by
  constructor
  · cases hty : e.type with
    | none => simp [createEventEnvelopeHeaders, hty]
    | some ty =>
      cases ty
      cases htc : e.contexts.bind (fun c => c.trace) with
      | none => simp [createEventEnvelopeHeaders, hty, htc]
      | some tc => simp [createEventEnvelopeHeaders, hty, htc]
  · intro kvs hkvs
    cases hty : e.type with
    | none => simp [createEventEnvelopeHeaders, hty] at hkvs
    | some ty =>
      cases ty
      cases htc : e.contexts.bind (fun c => c.trace) with
      | none => simp [createEventEnvelopeHeaders, hty, htc] at hkvs
      | some tc =>
        simp [createEventEnvelopeHeaders, hty, htc] at hkvs
        subst hkvs
        exact dropUndefinedKeys_no_undef _

/-- Witness for the C2 theorem: a concrete transaction event with a trace
context and several undefined optional fields yields a trace sub-object
containing only defined values. -/
theorem createEventEnvelopeHeaders_trace_spec_witness :
    ("trace_id", TraceVal.str "tid").2 ≠ TraceVal.undef :=
  (createEventEnvelopeHeaders_trace_spec
      { type := some EventType.transaction
        contexts := some { trace := some { trace_id := some "tid" } } }
      none none { publicKey := some "pk" } "2024-01-01T00:00:00.000Z").2
    [("trace_id", TraceVal.str "tid"), ("public_key", TraceVal.str "pk")]
    (by decide)
    ("trace_id", TraceVal.str "tid") (by decide)

/-- C3: for every input event with `sdkProcessingMetadata` set, the event
item payload of the envelope carries no `sdkProcessingMetadata`, while the
item header's `sample_rates` still reflect the sampling data read from the
input before the deletion. -/
theorem createEventEnvelope_strips_processing_metadata (e : Event) (d : DsnComponents)
    (m : Option SdkMetadata) (t : Option String) (now : String)
    (h : e.sdkProcessingMetadata.isSome = true) :
    ((createEventEnvelope e d m t now).2.map
        (fun item => item.2.sdkProcessingMetadata) = [none])
    ∧ ((createEventEnvelope e d m t now).2.map (fun item => item.1.sample_rates)
        = [[{ id := samplingMethodOf e, rate := sampleRateOf e }]]) := by
  constructor
  · simp [createEventEnvelope, createEnvelope]
  · rfl

/-- A sample event carrying sampling data in its processing metadata. -/
def sampledEvent : Event :=
  { sdkProcessingMetadata :=
      some { transactionSampling := some { method := some "client_rate", rate := some 1 } } }

/-- Witness for the C3 theorem at a concrete event carrying sampling data. -/
theorem createEventEnvelope_strips_processing_metadata_witness :
    ((createEventEnvelope sampledEvent {} none none "2024-01-01T00:00:00.000Z").2.map
        (fun item => item.2.sdkProcessingMetadata) = [none])
    ∧ ((createEventEnvelope sampledEvent {} none none "2024-01-01T00:00:00.000Z").2.map
        (fun item => item.1.sample_rates)
        = [[{ id := samplingMethodOf sampledEvent, rate := sampleRateOf sampledEvent }]]) :=
  createEventEnvelope_strips_processing_metadata
    sampledEvent {} none none "2024-01-01T00:00:00.000Z" (by decide)

/-- C4: the event item header is `{ type, sample_rates }` with `type` equal
to `event.type` or the literal `event`, and `sample_rates` always a
one-element list holding the sampling method and rate read from the input
event's `sdkProcessingMetadata.transactionSampling`. -/
theorem createEventEnvelope_item_header (e : Event) (d : DsnComponents)
    (m : Option SdkMetadata) (t : Option String) (now : String) :
    (createEventEnvelope e d m t now).2.map (fun item => item.1)
      = [{ type := eventTypeStringOf e
           sample_rates := [{ id := samplingMethodOf e, rate := sampleRateOf e }] }] := rfl

/-- C5: the session item type is selected solely by structural presence of
the `aggregates` field — `sessions` when present, `session` otherwise — and
the item payload is the input object itself. -/
theorem createSessionEnvelope_item (s : SessionLike) (d : DsnComponents)
    (m : Option SdkMetadata) (t : Option String) (now : String) :
    (createSessionEnvelope s d m t now).2
      = [({ type := if s.hasAggregates then "sessions" else "session" }, s)] := by
  cases s <;> rfl

/-- C6: in both event and session envelope headers, `sent_at` is always the
packaging-time timestamp, the `sdk` key is present iff metadata with an
`sdk` sub-record was supplied, and the `dsn` routing key is present iff the
tunnel argument is truthy — independently of the other inputs. -/
theorem envelope_headers_optional_keys (e : Event) (s : SessionLike) (d : DsnComponents)
    (m : Option SdkMetadata) (t : Option String) (now : String) :
    ((createEventEnvelope e d m t now).1.sent_at = now)
    ∧ ((createSessionEnvelope s d m t now).1.sent_at = now)
    ∧ ((createEventEnvelope e d m t now).1.sdk.isSome
        ↔ (m.bind (fun md => md.sdk)).isSome)
    ∧ ((createSessionEnvelope s d m t now).1.sdk.isSome
        ↔ (m.bind (fun md => md.sdk)).isSome)
    ∧ ((createEventEnvelope e d m t now).1.dsn.isSome ↔ jsTruthyStr t = true)
    ∧ ((createSessionEnvelope s d m t now).1.dsn.isSome ↔ jsTruthyStr t = true) := by
  refine ⟨rfl, rfl, ?_, ?_, ?_, ?_⟩
  · cases hm : m.bind (fun md => md.sdk) <;>
      simp [createEventEnvelope, createEventEnvelopeHeaders, createEnvelope,
        getSdkMetadataForEnvelopeHeader, hm]
  · cases hm : m.bind (fun md => md.sdk) <;>
      simp [createSessionEnvelope, createEnvelope, getSdkMetadataForEnvelopeHeader, hm]
  · cases ht : jsTruthyStr t <;>
      simp [createEventEnvelope, createEventEnvelopeHeaders, createEnvelope, ht]
  · cases ht : jsTruthyStr t <;>
      simp [createSessionEnvelope, createEnvelope, ht]

/-- C8 counterexample: with `event_id` absent the header builder raises no
"missing required identifier" error — it emits a header whose `event_id` is
simply absent, all other keys built as usual. -/
theorem createEventEnvelopeHeaders_no_event_id_check :
    createEventEnvelopeHeaders {} none none {} "2024-01-01T00:00:00.000Z"
      = { event_id := none, sent_at := "2024-01-01T00:00:00.000Z",
          sdk := none, dsn := none, trace := none } := rfl

/-- C8 (amended): the header builder performs no validation of `event_id`:
the value — present or absent — is copied verbatim from the event into the
header, and an absent `event_id` yields a header without one rather than an
error. -/
theorem createEventEnvelopeHeaders_event_id_verbatim (e : Event) (si : Option SdkInfo)
    (t : Option String) (d : DsnComponents) (now : String) :
    (createEventEnvelopeHeaders e si t d now).event_id = e.event_id := rfl

theorem enhanceEventWithSdkInfo_frame (e : Event) (o : Option SdkInfo) :
    (enhanceEventWithSdkInfo e o).event_id = e.event_id
    ∧ (enhanceEventWithSdkInfo e o).type = e.type
    ∧ (enhanceEventWithSdkInfo e o).message = e.message
    ∧ (enhanceEventWithSdkInfo e o).timestamp = e.timestamp
    ∧ (enhanceEventWithSdkInfo e o).environment = e.environment
    ∧ (enhanceEventWithSdkInfo e o).release = e.release
    ∧ (enhanceEventWithSdkInfo e o).transaction = e.transaction
    ∧ (enhanceEventWithSdkInfo e o).user = e.user
    ∧ (enhanceEventWithSdkInfo e o).contexts = e.contexts
    ∧ (enhanceEventWithSdkInfo e o).tags = e.tags
    ∧ (enhanceEventWithSdkInfo e o).sdkProcessingMetadata = e.sdkProcessingMetadata := by
  cases o <;> simp [enhanceEventWithSdkInfo]

/-- C9: `createEventEnvelope` changes the event payload only through the
SdkMetadata merger (the `sdk` sub-record) and by deleting
`sdkProcessingMetadata`; every other field of the payload equals the input's,
and `createSessionEnvelope` emits its session input unchanged. -/
theorem envelope_creation_frame (e : Event) (s : SessionLike) (d : DsnComponents)
    (m : Option SdkMetadata) (t : Option String) (now : String) :
    ((createEventEnvelope e d m t now).2.map (fun item => item.2)
      = [{ enhanceEventWithSdkInfo e (m.bind (fun md => md.sdk)) with
            sdkProcessingMetadata := none }])
    ∧ ((createEventEnvelope e d m t now).2.map (fun item => item.2.event_id)
        = [e.event_id])
    ∧ ((createEventEnvelope e d m t now).2.map (fun item => item.2.type) = [e.type])
    ∧ ((createEventEnvelope e d m t now).2.map (fun item => item.2.message)
        = [e.message])
    ∧ ((createEventEnvelope e d m t now).2.map (fun item => item.2.timestamp)
        = [e.timestamp])
    ∧ ((createEventEnvelope e d m t now).2.map (fun item => item.2.environment)
        = [e.environment])
    ∧ ((createEventEnvelope e d m t now).2.map (fun item => item.2.release)
        = [e.release])
    ∧ ((createEventEnvelope e d m t now).2.map (fun item => item.2.transaction)
        = [e.transaction])
    ∧ ((createEventEnvelope e d m t now).2.map (fun item => item.2.user) = [e.user])
    ∧ ((createEventEnvelope e d m t now).2.map (fun item => item.2.contexts)
        = [e.contexts])
    ∧ ((createEventEnvelope e d m t now).2.map (fun item => item.2.tags) = [e.tags])
    ∧ ((createSessionEnvelope s d m t now).2.map (fun item => item.2) = [s]) := by
  obtain ⟨h1, h2, h3, h4, h5, h6, h7, h8, h9, h10, h11⟩ :=
    enhanceEventWithSdkInfo_frame e (m.bind (fun md => md.sdk))
  refine ⟨rfl, ?_, ?_, ?_, ?_, ?_, ?_, ?_, ?_, ?_, ?_, ?_⟩
  · simp [createEventEnvelope, createEnvelope, h1]
  · simp [createEventEnvelope, createEnvelope, h2]
  · simp [createEventEnvelope, createEnvelope, h3]
  · simp [createEventEnvelope, createEnvelope, h4]
  · simp [createEventEnvelope, createEnvelope, h5]
  · simp [createEventEnvelope, createEnvelope, h6]
  · simp [createEventEnvelope, createEnvelope, h7]
  · simp [createEventEnvelope, createEnvelope, h8]
  · simp [createEventEnvelope, createEnvelope, h9]
  · simp [createEventEnvelope, createEnvelope, h10]
  · cases s <;> rfl

theorem flushStep_spec (s : ReplayState) :
    ((flushStep s).1.counter = s.counter + (flushStep s).2.toList.length)
    ∧ (∀ seg, (flushStep s).2 = some seg → seg.segment_id = s.counter) := by
  unfold flushStep
  split
  · simp
  · constructor
    · simp
    · intro seg hseg
      simp at hseg
      rw [← hseg]

theorem replayStep_spec (s : ReplayState) (op : ReplayOp) :
    ((replayStep s op).1.counter = s.counter + (replayStep s op).2.toList.length)
    ∧ (∀ seg, (replayStep s op).2 = some seg → seg.segment_id = s.counter) := by
  cases hrec : s.recording with
  | false => simp [replayStep, hrec]
  | true =>
    obtain ⟨hf1, hf2⟩ := flushStep_spec s
    cases op with
    | addSnapshot d => simp [replayStep, hrec]
    | addMutation d => simp [replayStep, hrec]
    | addBreadcrumb d => simp [replayStep, hrec]
    | addSpan d => simp [replayStep, hrec]
    | tick => simpa [replayStep, hrec] using ⟨hf1, hf2⟩
    | backgrounded => simpa [replayStep, hrec] using ⟨hf1, hf2⟩
    | navigated => simpa [replayStep, hrec] using ⟨hf1, hf2⟩
    | manualFlush => simpa [replayStep, hrec] using ⟨hf1, hf2⟩
    | reloaded => simpa [replayStep, hrec] using ⟨hf1, hf2⟩
    | stop => simpa [replayStep, hrec] using ⟨hf1, hf2⟩

theorem replayRun_spec (s : ReplayState) (ops : List ReplayOp) :
    ((replayRun s ops).2.map (fun seg => seg.segment_id)
      = List.range' s.counter (replayRun s ops).2.length)
    ∧ ((replayRun s ops).1.counter = s.counter + (replayRun s ops).2.length) := by
  induction ops generalizing s with
  | nil => simp [replayRun]
  | cons op rest ih =>
    obtain ⟨hstep1, hstep2⟩ := replayStep_spec s op
    obtain ⟨ih1, ih2⟩ := ih (replayStep s op).1
    cases hseg : (replayStep s op).2 with
    | none =>
      rw [hseg] at hstep1
      simp at hstep1
      simp only [replayRun, hseg, Option.toList_none, List.nil_append]
      exact ⟨by rw [ih1, hstep1], by rw [ih2, hstep1]⟩
    | some seg =>
      have hid := hstep2 seg hseg
      rw [hseg] at hstep1
      simp at hstep1
      simp only [replayRun, hseg, Option.toList_some, List.singleton_append,
        List.map_cons, List.length_cons]
      constructor
      · rw [ih1, hstep1, hid, List.range'_succ]
      · rw [ih2, hstep1]
        omega

/-- C7: over any operation trace of a single session, the emitted segment
ids are exactly `0, 1, 2, …` — strictly increasing from 0 with no gaps, the
counter surviving reload and navigation triggers — and a flush (here a
`tick`) that finds the Accumulator empty of all four data kinds is a no-op
that consumes no segment id. -/
theorem replay_segment_ids_spec (ops : List ReplayOp) (s : ReplayState) :
    ((replayRun replayStart ops).2.map (fun seg => seg.segment_id)
      = List.range (replayRun replayStart ops).2.length)
    ∧ (s.buffer.isEmpty = true → flushStep s = (s, none))
    ∧ (s.recording = true → s.buffer.isEmpty = true →
        replayStep s ReplayOp.tick = (s, none)) := by
  refine ⟨?_, ?_, ?_⟩
  · rw [List.range_eq_range']
    exact (replayRun_spec replayStart ops).1
  · intro hb
    simp [flushStep, hb]
  · intro hr hb
    simp [replayStep, hr, flushStep, hb]

/-- Witness for the C7 theorem: a tick on a recording state with an empty
buffer (and a counter mid-session) changes nothing and emits no segment. -/
theorem replay_segment_ids_spec_witness :
    replayStep { recording := true, counter := 5, buffer := {} } ReplayOp.tick
      = ({ recording := true, counter := 5, buffer := {} }, none) :=
  (replay_segment_ids_spec
      [ReplayOp.addSnapshot 0, ReplayOp.tick, ReplayOp.reloaded,
       ReplayOp.addSnapshot 1, ReplayOp.backgrounded, ReplayOp.stop]
      { recording := true, counter := 5, buffer := {} }).2.2 (by decide) (by decide)
